import Mathlib

/-!
Shallow embedding of the core of the opentoolflux repository
(src/opentoolflux/database.py, measurements.py, fluxes.py) and proofs
about it.

Modelling conventions:
* A pandas DataFrame "database" is a schema (association list of column
  name and dtype name, mirroring `DataFrame.dtypes`) together with a list
  of (timestamp, row) pairs; the timestamp index is an int64 count of
  nanoseconds since the Unix epoch, modelled as an integer.
* `sort_index()` on the concatenated frame guarantees only a
  timestamp-sorted permutation of its input: the default sort kind is an
  unstable quicksort (numpy introsort), so the relative order of rows
  with equal timestamps is unspecified.  The predicate
  `SortIndexAdmissible` captures exactly this contract.  The executable
  `update` returns one concrete admissible outcome (the stable insertion
  sort `sortByTs`); any property that depends on the tie order at
  duplicated timestamps is analysed against the contract, not against
  that particular choice.
* float64 values are modelled by their exact rational values; the float
  computations of fluxes.py are modelled in exact real arithmetic
  (every float64 value is a rational, and none of the inputs considered
  here reach NaN or infinity).
-/

namespace OTF

/-- The dtype names accepted for ingestion columns
(`DTypeName` in database.py). -/
inductive DTypeName where
  | uint8 | uint16 | uint32 | uint64
  | int8 | int16 | int32 | int64
  | float16 | float32 | float64
  | bool | str
deriving DecidableEq, Repr

abbrev Colname := String

/-- A database: the column schema (as in `DataFrame.dtypes`: column name
with dtype, in column order) and the rows, indexed by an int64 count of
nanoseconds since the Unix epoch (`__TIMESTAMP__` index).  The row
payload is abstract (`α`). -/
structure DB (α : Type) where
  dtypes : List (Colname × DTypeName)
  rows : List (Int × α)
deriving DecidableEq, Repr

/-- `set(original.columns) == set(db.columns)`: equality of the column
name sets. -/
def colSetEq (d1 d2 : List (Colname × DTypeName)) : Bool :=
  (d1.map Prod.fst).all (fun c => (d2.map Prod.fst).contains c) &&
    (d2.map Prod.fst).all (fun c => (d1.map Prod.fst).contains c)

/-- `original.dtypes.to_dict() == db.dtypes.to_dict()`: equality of the
column-to-dtype mappings (order independent, like Python dict equality).
-/
def dtypeDictEq (d1 d2 : List (Colname × DTypeName)) : Bool :=
  (d1.all (fun p => decide (List.lookup p.1 d2 = some p.2))) &&
    (d2.all (fun p => decide (List.lookup p.1 d1 = some p.2)))

/-- The `for db in databases:` schema-verification loop at the top of
`update` (database.py lines 143-152): the first offending batch raises
`ValueError`, with one message for an unequal column set and another for
conflicting dtypes. -/
def checkSchemas {α : Type} (original : DB α) : List (DB α) → Except String Unit
  | [] => Except.ok ()
  | db :: rest =>
    if colSetEq original.dtypes db.dtypes then
      if dtypeDictEq original.dtypes db.dtypes then
        checkSchemas original rest
      else Except.error "Conflicting dtypes"
    else Except.error "Unequal set of columns"

/-- Insert one (timestamp, row) pair into a list sorted ascending by
timestamp, after all entries with a strictly smaller key and before all
entries with a greater-or-equal key.  Helper for `sortByTs`; it realizes
one particular (stable) tie order, which the real `sort_index()` does
NOT promise — see `SortIndexAdmissible`. -/
def insertRow {α : Type} (x : Int × α) : List (Int × α) → List (Int × α)
  | [] => [x]
  | y :: ys => if y.1 < x.1 then y :: insertRow x ys else x :: y :: ys

/-- An insertion sort by timestamp: ONE admissible outcome of
`pd.concat([...]).sort_index()` (the stable, concatenation-order
preserving one; see `sortByTs_admissible`).  The real sort's tie order
among equal timestamps is unspecified, because `sort_index()` defaults
to `kind="quicksort"`, numpy's unstable introsort; `update` uses this
function only to return a concrete sorted result, and every property
that depends on the tie order is settled against `SortIndexAdmissible`
instead. -/
def sortByTs {α : Type} : List (Int × α) → List (Int × α)
  | [] => []
  | x :: xs => insertRow x (sortByTs xs)

/-- The contract of `sort_index()` with the default
`kind="quicksort"`: the result is some permutation of the input that is
sorted (non-strictly) by timestamp.  Nothing more is promised — numpy's
introsort is documented as unstable, so the relative order of entries
with equal timestamps is unspecified, and any list satisfying this
predicate is an admissible outcome of the sort. -/
def SortIndexAdmissible {α : Type} (input s : List (Int × α)) : Prop :=
  s.Perm input ∧ s.Pairwise (fun a b => a.1 ≤ b.1)

/-- `concatenated[~concatenated.index.duplicated(keep="last")]`: keep an
entry exactly when its timestamp does not occur again later in the
list. -/
def dropDupKeepLast {α : Type} : List (Int × α) → List (Int × α)
  | [] => []
  | x :: xs =>
    if xs.any (fun y => decide (y.1 = x.1)) then dropDupKeepLast xs
    else x :: dropDupKeepLast xs

/-- Row lookup by timestamp: the first entry with the given key
(on a unique index this is the row at that timestamp). -/
def findRow {α : Type} (t : Int) : List (Int × α) → Option α
  | [] => none
  | x :: xs => if x.1 = t then some x.2 else findRow t xs

/-- The last entry with the given key, if any.  On the concatenation of
the inputs of a merge this is exactly "the row from the latest-supplied
input at that timestamp". -/
def lookupLast {α : Type} (t : Int) : List (Int × α) → Option α
  | [] => none
  | x :: xs =>
    match lookupLast t xs with
    | some v => some v
    | none => if x.1 = t then some x.2 else none

/-- The row part of `update` (database.py lines 153-154):
`concatenated = pd.concat([original, *databases]).sort_index()` followed
by `concatenated[~concatenated.index.duplicated(keep="last")]`, with the
sort committed to the stable admissible outcome.  Which row survives at
a duplicated timestamp depends on the sort's unspecified tie order; see
`update_lww_not_guaranteed`. -/
def mergedRows {α : Type} (original : List (Int × α)) (batches : List (List (Int × α))) :
    List (Int × α) :=
  dropDupKeepLast (sortByTs (original ++ batches.flatten))

/-- `update(original, *databases)` (database.py lines 142-154).  The
function is pure: on a schema mismatch it returns the error raised by
the loop at the top, and the original store is untouched.  The ok
branch commits to the stable admissible sort outcome; the code itself
does not pin the tie order at duplicated timestamps (see
`SortIndexAdmissible`), so the claims that hinge on that order (C1, C2)
are settled against the contract, not against this function. -/
def update {α : Type} (original : DB α) (databases : List (DB α)) : Except String (DB α) :=
  match checkSchemas original databases with
  | Except.error e => Except.error e
  | Except.ok _ =>
    Except.ok ⟨original.dtypes, mergedRows original.rows (databases.map DB.rows)⟩

/-- A 17-row store for the merge tie-order scenario: timestamps
0, 2, ..., 32, each row value equal to its timestamp. -/
def lwwStore : List (Int × Int) :=
  [(0, 0), (2, 2), (4, 4), (6, 6), (8, 8), (10, 10), (12, 12), (14, 14),
    (16, 16), (18, 18), (20, 20), (22, 22), (24, 24), (26, 26), (28, 28),
    (30, 30), (32, 32)]

/-- A one-row batch that is meant to supersede the store row at the
duplicated timestamp 8 with the new value 81. -/
def lwwBatch : List (Int × Int) := [(8, 81)]

/-- A sorted order of `lwwStore ++ lwwBatch` that places the
later-supplied batch copy of timestamp 8 BEFORE the original store
copy.  It is admissible under the `sort_index()` contract
(`update_lww_not_guaranteed` proves it), and it is the order numpy's
introsort actually produces on this 18-element array: 18 elements
exceed the 16-element insertion-sort cutoff, and the median-of-three
pivot selection picks the duplicated timestamp 8 (median of the first,
middle and last elements 0, 16, 8) and swaps the later copy in front of
the earlier one during partitioning. -/
def lwwBadOrder : List (Int × Int) :=
  [(0, 0), (2, 2), (4, 4), (6, 6), (8, 81), (8, 8), (10, 10), (12, 12),
    (14, 14), (16, 16), (18, 18), (20, 20), (22, 22), (24, 24), (26, 26),
    (28, 28), (30, 30), (32, 32)]

/-- `numpy.round` / `Series.round`: round to the nearest integer,
breaking ties to the even integer. -/
def roundHalfEven (q : ℚ) : ℤ :=
  if q - ⌊q⌋ < 1 / 2 then ⌊q⌋
  else if 1 / 2 < q - ⌊q⌋ then ⌊q⌋ + 1
  else if ⌊q⌋ % 2 = 0 then ⌊q⌋ else ⌊q⌋ + 1

/-- A raw timestamp column together with its dtype kind, the argument of
`convert_datetime` (database.py lines 91-139).  Float values are modelled
by their exact rational values; a kind-"O" (text) column is modelled by
the instants its ISO-8601 strings parse to, since string parsing itself
is outside the scope of the claims. -/
inductive RawSeries where
  | floatKind (dtype : DTypeName) (values : List ℚ)
  | intKind (values : List ℤ)
  | objKind (parsedNs : List ℤ)
  | otherKind
deriving DecidableEq, Repr

/-- `convert_datetime` (database.py lines 91-139), producing the
nanosecond instants of the `datetime64[ns]` result.

* float kind: unless the dtype is exactly float64, raise; otherwise
  multiply by 10^6, round to the nearest integer (half to even, as
  `Series.round` does), reinterpret as `datetime64[us]` and widen to
  `datetime64[ns]` (i.e. multiply the microsecond count by 1000).
* integer kind: `s.astype("datetime64[ns]")`.  NOTE: numpy and pandas
  interpret the integer values as counts of the TARGET unit, i.e. as
  nanoseconds since the epoch, so the value n becomes the instant n
  nanoseconds after the epoch (not n seconds, contrary to the docstring
  of `convert_datetime`).
* object kind: `pd.to_datetime(..., format="ISO8601")`, modelled as the
  already-parsed instants.
* anything else: `NotImplementedError`. -/
def convert_datetime : RawSeries → Except String (List ℤ)
  | RawSeries.floatKind dt vals =>
    if dt = DTypeName.float64 then
      Except.ok (vals.map (fun v => 1000 * roundHalfEven (v * 1000000)))
    else Except.error "floating-point timestamp data must be float64"
  | RawSeries.intKind vals => Except.ok vals
  | RawSeries.objKind parsed => Except.ok parsed
  | RawSeries.otherKind => Except.error "Cannot make datetime from dtype"

/-! ## measurements.py -/

/-- A cell value of a filterable column: either a proper (rational)
value or the missing value NaN. -/
inductive FVal where
  | nan
  | val (q : ℚ)
deriving DecidableEq, Repr

/-- `values < bound` on a float column: any comparison involving NaN is
false. -/
def fvalLt : FVal → FVal → Bool
  | FVal.val a, FVal.val b => decide (a < b)
  | _, _ => false

/-- `values > bound`: any comparison involving NaN is false. -/
def fvalGt : FVal → FVal → Bool
  | FVal.val a, FVal.val b => decide (b < a)
  | _, _ => false

/-- `Series.isin(l)`: membership in the list.  pandas `isin` does match
a NaN value against a NaN element of the list, so plain list membership
(with `nan = nan`) is the faithful model. -/
def fvalIsin (v : FVal) (l : List FVal) : Bool :=
  l.any (fun x => decide (x = v))

/-- The `Filter` dataclass of measurements.py. -/
structure Filter where
  min_value : Option FVal := none
  max_value : Option FVal := none
  allow_only : Option (List FVal) := none
  disallow : Option (List FVal) := none
deriving DecidableEq, Repr

/-- `_is_excluded_by_filter` (measurements.py lines 26-39), per cell
value: the configured criteria are collected in the order disallow,
allow_only, min_value, max_value and reduced with `or` starting from
`False`; an absent criterion contributes nothing. -/
def is_excluded_by_filter (v : FVal) (f : Filter) : Bool :=
  (match f.disallow with
    | some l => fvalIsin v l
    | none => false) ||
  (match f.allow_only with
    | some l => !(fvalIsin v l)
    | none => false) ||
  (match f.min_value with
    | some m => fvalLt v m
    | none => false) ||
  (match f.max_value with
    | some m => fvalGt v m
    | none => false)

/-- One row of the filtered, timestamp-sorted table, as seen by the
segmenter: its timestamp (the int64 nanosecond count of the
`datetime64[ns]` index) and the value of the chamber-identifier
column. -/
abbrev MRow := ℤ × String

/-- The per-row boundary signal of `iter_measurements` (measurements.py
lines 94-95) for a row `cur` with predecessor `prev`:
`chamber_changed | gap_exceeded`, i.e. the chamber value differs from
the previous row, or the elapsed time since the previous row exceeds
`max_gap` (a `timedelta`, i.e. an int64 nanosecond count). -/
def isBoundary (max_gap : ℤ) (prev cur : MRow) : Bool :=
  decide (cur.2 ≠ prev.2) || decide (max_gap < cur.1 - prev.1)

/-- Helper for `episodes`: `cur` is the (nonempty) episode being built,
`prev` its last row.  A row with a true boundary signal closes the
current episode and starts a new one. -/
def episodesGo {β : Type} (b : β → β → Bool) (prev : β) (cur : List β) :
    List β → List (List β)
  | [] => [cur]
  | y :: ys =>
    if b prev y then cur :: episodesGo b y [y] ys
    else episodesGo b y (cur ++ [y]) ys

/-- Grouping of the rows by `measurement_number`, the running count of
boundary signals (measurements.py line 96 and the `groupby` on line
100): since the group numbers are nondecreasing along the table, the
groups are exactly the maximal runs free of boundary signals, in
original row order, and the very first row always starts episode 1. -/
def episodes {β : Type} (b : β → β → Bool) : List β → List (List β)
  | [] => []
  | x :: xs => episodesGo b x [x] xs

/-- `measurement.index[-1] - measurement.index[0]` (measurements.py
line 102): the duration of an episode, as a nanosecond count. -/
def duration (m : List MRow) : ℤ :=
  match m with
  | [] => 0
  | x :: xs => (List.getLastD xs x).1 - x.1

/-- `accept = min_duration <= duration <= max_duration` (measurements.py
line 104), both bounds inclusive. -/
def acceptEpisode (min_duration max_duration : ℤ) (m : List MRow) : Bool :=
  decide (min_duration ≤ duration m) && decide (duration m ≤ max_duration)

/-- `iter_measurements` (measurements.py lines 87-110): split the table
into episodes and yield exactly the accepted ones, in order.  (The
summary logging is diagnostic only, and `_ensure_float64_floats` only
re-types float columns of the yielded frame, which the `MRow`
abstraction does not carry.) -/
def iter_measurements (db : List MRow) (max_gap min_duration max_duration : ℤ) :
    List (List MRow) :=
  (episodes (isBoundary max_gap) db).filter (acceptEpisode min_duration max_duration)

/-! ## fluxes.py -/

/-- The `VolFluxEstimate` record of fluxes.py.  Instants and the
t0_delay/t0_margin durations are int64 nanosecond counts; the physical
constants and fitted quantities are float64, modelled as reals. -/
structure VolFluxEstimate where
  data_start : ℤ
  t0 : ℤ
  tau_s : ℝ
  h : ℝ
  fit_start : ℤ
  fit_end : ℤ
  c0 : ℝ
  vol_flux : ℝ

/-- The only failure the code can produce here: an `IndexError` from
`measurement.index[0]` or `data_analyze.index[0]` on an empty series. -/
inductive FluxError where
  | indexError
deriving DecidableEq, Repr

/-- `numpy.linalg.lstsq` for the two-column system `[1, z] @ [c0, F] = b`
(rcond=None): the least-squares solution, and the minimum-norm one when
the normal matrix is singular (which for this system means `z` is
constant, including the cases of one or zero rows). -/
noncomputable def lstsq2 (z b : List ℝ) : ℝ × ℝ :=
  let n : ℝ := z.length
  let sz : ℝ := z.sum
  let szz : ℝ := (z.map (fun x => x ^ 2)).sum
  let sb : ℝ := b.sum
  let szb : ℝ := (List.zipWith (fun x y => x * y) z b).sum
  let det : ℝ := n * szz - sz * sz
  if det = 0 then
    if n = 0 then (0, 0)
    else
      let c : ℝ := sz / n
      let m : ℝ := sb / n
      (m / (1 + c ^ 2), m * c / (1 + c ^ 2))
  else ((szz * sb - sz * szb) / det, (n * szb - sz * sb) / det)

/-- `_calculate_vol_flux_from_cleaned_data` (fluxes.py lines 69-92):
`z = (tau / h) * (1 - exp(-elapsed / tau))`, then solve
`1 * x0 + z * x1 = b` by least squares.  There is no validity check on
`tau` or `h`. -/
noncomputable def calculate_vol_flux_from_cleaned_data
    (elapsed concentrations : List ℝ) (tau h : ℝ) : ℝ × ℝ :=
  lstsq2 (elapsed.map (fun e => (tau / h) * (1 - Real.exp (-e / tau)))) concentrations

/-- `data_analyze = measurement[measurement.index >= data_start + t0_delay + t0_margin]`
(fluxes.py lines 36-38): the sub-series selected for the fit.  A sample
is a (nanosecond instant, float64 concentration) pair; `t0_delay` and
`t0_margin` are `timedelta` nanosecond counts. -/
def selectAnalyze (measurement : List (ℤ × ℚ)) (t0_delay t0_margin : ℤ) :
    List (ℤ × ℚ) :=
  match measurement with
  | [] => []
  | m0 :: _ => measurement.filter (fun p => decide (m0.1 + t0_delay + t0_margin ≤ p.1))

/-- `estimate_vol_flux` (fluxes.py lines 25-55).  A measurement is a
series of (timestamp, concentration) samples; an empty measurement or an
empty selected sub-series makes the code raise `IndexError` when it
subscripts `index[0]` (there is no dedicated insufficient-data check,
and no check on `tau_s` or `h`).  Note that with an empty selection the
`lstsq` call itself succeeds (numpy returns the zero solution for an
empty system); the failure only happens afterwards, at
`data_analyze.index[0]` while building the result record. -/
noncomputable def estimate_vol_flux (measurement : List (ℤ × ℚ))
    (t0_delay t0_margin : ℤ) (tau_s h : ℝ) : Except FluxError VolFluxEstimate :=
  match measurement with
  | [] => Except.error FluxError.indexError
  | m0 :: _ =>
    match selectAnalyze measurement t0_delay t0_margin with
    | [] => Except.error FluxError.indexError
    | a0 :: rest =>
      let data_start : ℤ := m0.1
      let t0 : ℤ := data_start + t0_delay
      let data_analyze := a0 :: rest
      let elapsed_seconds : List ℝ :=
        data_analyze.map (fun p => ((p.1 - t0 : ℤ) : ℝ) / 10 ^ 9)
      let concentrations : List ℝ := data_analyze.map (fun p => ((p.2 : ℚ) : ℝ))
      let cf := calculate_vol_flux_from_cleaned_data elapsed_seconds concentrations tau_s h
      Except.ok
        { data_start := data_start
          t0 := t0
          tau_s := tau_s
          h := h
          fit_start := a0.1
          fit_end := (List.getLastD rest a0).1
          c0 := cf.1
          vol_flux := cf.2 }


/-! ## Lemmas about the merge -/

theorem checkSchemas_error_of_mem {α : Type} (S B : DB α) :
    ∀ (Bs : List (DB α)), B ∈ Bs →
      colSetEq S.dtypes B.dtypes = false ∨ dtypeDictEq S.dtypes B.dtypes = false →
      ∃ e, checkSchemas S Bs = Except.error e := by
  intro Bs
  induction Bs with
  | nil => exact fun h _ => absurd h (List.not_mem_nil B)
  | cons hd tl ih =>
    intro hmem hbad
    simp only [checkSchemas]
    by_cases h1 : colSetEq S.dtypes hd.dtypes = true
    · by_cases h2 : dtypeDictEq S.dtypes hd.dtypes = true
      · rw [if_pos h1, if_pos h2]
        rcases List.mem_cons.mp hmem with rfl | hmem2
        · rcases hbad with hb | hb
          · rw [h1] at hb
            exact Bool.noConfusion hb
          · rw [h2] at hb
            exact Bool.noConfusion hb
        · exact ih hmem2 hbad
      · rw [if_pos h1, if_neg h2]
        exact ⟨_, rfl⟩
    · rw [if_neg h1]
      exact ⟨_, rfl⟩

/-- C1 (evaluation of the failing scenario): the `sort_index()`
contract — a timestamp-sorted permutation, tie order among equal
timestamps unspecified because the default kind is numpy's unstable
introsort — does not force last-write-wins.  On the 18-row
concatenation of the 17-row store `lwwStore` with the batch `lwwBatch`
at the duplicated timestamp 8, the order `lwwBadOrder` is admissible
(it is in fact the order numpy's introsort produces on this array), and
the keep-last duplicate drop then keeps the stale store row (value 8)
although the latest-supplied row at timestamp 8 is the batch row
(value 81).  So the claim describes the spec's intent, and the code —
which would need a stable sort kind to realize it — does not guarantee
it. -/
theorem update_lww_not_guaranteed :
    SortIndexAdmissible (lwwStore ++ lwwBatch) lwwBadOrder ∧
      findRow 8 (dropDupKeepLast lwwBadOrder) = some 8 ∧
      lookupLast 8 (lwwStore ++ lwwBatch) = some 81 ∧
      ((8 : Int) ≠ 81) :=
  ⟨⟨by decide, by decide⟩, by decide, by decide, by decide⟩

/-- C7: merging any sequence of batches containing one whose column set
or column-to-dtype mapping differs from the store fails with a
schema-mismatch error.  `update` is pure, so the failed call leaves the
original store untouched, and the error is raised by the verification
loop before any rows are combined. -/
theorem update_rejects_schema_drift {α : Type} (S B : DB α) (Bs : List (DB α))
    (hmem : B ∈ Bs)
    (hbad : colSetEq S.dtypes B.dtypes = false ∨ dtypeDictEq S.dtypes B.dtypes = false) :
    ∃ e, update S Bs = Except.error e := by
  rcases checkSchemas_error_of_mem S B Bs hmem hbad with ⟨e, he⟩
  refine ⟨e, ?_⟩
  unfold update
  rw [he]

/-- Witness for C7: a batch with an extra column C is rejected. -/
theorem update_rejects_schema_drift_witness :
    (update (⟨[("B", DTypeName.uint8)], [(1, (10 : Int)), (2, 20)]⟩ : DB Int)
      [(⟨[("B", DTypeName.uint8), ("C", DTypeName.uint8)], [(2, (25 : Int))]⟩ : DB Int)]).isOk
      = false := by
  rcases update_rejects_schema_drift
      (⟨[("B", DTypeName.uint8)], [(1, (10 : Int)), (2, 20)]⟩ : DB Int)
      (⟨[("B", DTypeName.uint8), ("C", DTypeName.uint8)], [(2, (25 : Int))]⟩ : DB Int)
      [(⟨[("B", DTypeName.uint8), ("C", DTypeName.uint8)], [(2, (25 : Int))]⟩ : DB Int)]
      (List.mem_cons_self _ _) (Or.inl (by rfl)) with ⟨e, he⟩
  rw [he]
  rfl

/-! ## Timestamp conversion (C3, C6) -/

/-- `roundHalfEven` is within 1/2 of its argument. -/
theorem abs_roundHalfEven_sub_le (q : ℚ) : |(roundHalfEven q : ℚ) - q| ≤ 1 / 2 := by
  unfold roundHalfEven
  have h0 : (⌊q⌋ : ℚ) ≤ q := Int.floor_le q
  have h1 : q < ⌊q⌋ + 1 := Int.lt_floor_add_one q
  by_cases hlt : q - ⌊q⌋ < 1 / 2
  · rw [if_pos hlt, abs_le]
    constructor <;> linarith
  · by_cases hgt : 1 / 2 < q - ⌊q⌋
    · rw [if_neg hlt, if_pos hgt, abs_le]
      push_cast
      constructor <;> linarith
    · have htie : q - ⌊q⌋ = 1 / 2 := le_antisymm (le_of_not_lt hgt) (le_of_not_lt hlt)
      rw [if_neg hlt, if_neg hgt]
      by_cases he : ⌊q⌋ % 2 = 0
      · rw [if_pos he, abs_le]
        constructor <;> linarith
      · rw [if_neg he, abs_le]
        push_cast
        constructor <;> linarith

/-- The microsecond-rounding conversion of one float64 Unix-seconds
value round-trips to within one microsecond. -/
theorem float_conversion_micro_bound (v : ℚ) :
    |((1000 * roundHalfEven (v * 1000000) : ℤ) : ℚ) / 10 ^ 9 - v| ≤ 1 / 10 ^ 6 := by
  have hr := abs_roundHalfEven_sub_le (v * 1000000)
  have key : ((1000 * roundHalfEven (v * 1000000) : ℤ) : ℚ) / 10 ^ 9 - v
      = ((roundHalfEven (v * 1000000) : ℚ) - v * 1000000) / 10 ^ 6 := by
    push_cast
    ring
  rw [key, abs_div, show |(10 ^ 6 : ℚ)| = 10 ^ 6 from by norm_num]
  rw [div_le_div_iff₀ (by norm_num) (by norm_num)]
  nlinarith [hr]

theorem forall2_float_conversion (vals : List ℚ) :
    List.Forall₂
      (fun (n : ℤ) (v : ℚ) =>
        n = 1000 * roundHalfEven (v * 1000000) ∧ |(n : ℚ) / 10 ^ 9 - v| ≤ 1 / 10 ^ 6)
      (vals.map (fun v => 1000 * roundHalfEven (v * 1000000))) vals := by
  induction vals with
  | nil => exact List.Forall₂.nil
  | cons v vs ih =>
    exact List.Forall₂.cons ⟨rfl, float_conversion_micro_bound v⟩ ih

/-- C6: a float64 Unix-seconds timestamp column is converted by
multiplying by 10^6, rounding to the nearest integer microsecond and
widening to nanoseconds, so converting back (dividing the nanosecond
instant by 10^9) recovers every input value to within one microsecond;
a floating-point timestamp column of any dtype other than float64 is
rejected with an error. -/
theorem convert_datetime_float64_spec (dt : DTypeName) (vals : List ℚ) :
    (dt ≠ DTypeName.float64 →
      ∃ e, convert_datetime (RawSeries.floatKind dt vals) = Except.error e) ∧
    (∀ ns, convert_datetime (RawSeries.floatKind DTypeName.float64 vals) = Except.ok ns →
      List.Forall₂
        (fun (n : ℤ) (v : ℚ) =>
          n = 1000 * roundHalfEven (v * 1000000) ∧ |(n : ℚ) / 10 ^ 9 - v| ≤ 1 / 10 ^ 6)
        ns vals) := by
  constructor
  · intro hne
    refine ⟨"floating-point timestamp data must be float64", ?_⟩
    simp only [convert_datetime, if_neg hne]
  · intro ns hok
    simp only [convert_datetime, if_true] at hok
    rw [← Except.ok.inj hok]
    exact forall2_float_conversion vals

/-- Witness for C6: dtype float32 is rejected; the value 3/2 s maps to
1500000000 ns and round-trips exactly. -/
theorem convert_datetime_float64_spec_witness :
    (∃ e, convert_datetime (RawSeries.floatKind DTypeName.float32 [(3 : ℚ) / 2]) =
      Except.error e) ∧
    List.Forall₂
      (fun (n : ℤ) (v : ℚ) =>
        n = 1000 * roundHalfEven (v * 1000000) ∧ |(n : ℚ) / 10 ^ 9 - v| ≤ 1 / 10 ^ 6)
      [1500000000] [(3 : ℚ) / 2] :=
  ⟨(convert_datetime_float64_spec DTypeName.float32 [(3 : ℚ) / 2]).1 (by decide),
   (convert_datetime_float64_spec DTypeName.float64 [(3 : ℚ) / 2]).2 [1500000000] (by
    simp only [convert_datetime, List.map]
    norm_num [roundHalfEven])⟩

/-- C3 (evaluation of the code at the failing input): for an
integer-typed raw timestamp column, `convert_datetime` does
`s.astype("datetime64[ns]")`, which reinterprets the integer values as
counts of nanoseconds: the value 1 becomes the instant 1 ns after the
epoch, not the instant 1 s = 10^9 ns after the epoch that the docstring
("Numeric data is interpreted as Unix timestamps in seconds") and the
spec describe. -/
theorem convert_datetime_int_nanoseconds :
    convert_datetime (RawSeries.intKind [1]) = Except.ok [1] ∧
      convert_datetime (RawSeries.intKind [1]) ≠ Except.ok [10 ^ 9] := by
  constructor
  · rfl
  · intro hcontra
    have hlist : ([1] : List ℤ) = [10 ^ 9] :=
      Except.ok.inj ((show convert_datetime (RawSeries.intKind [1]) = Except.ok [1]
        from rfl).symm.trans hcontra)
    exact absurd hlist (by decide)

/-! ## Row filter (C10) -/

theorem fvalLt_nan_left (w : FVal) : fvalLt FVal.nan w = false := by
  cases w <;> rfl

theorem fvalGt_nan_left (w : FVal) : fvalGt FVal.nan w = false := by
  cases w <;> rfl

/-- C10: for a missing (NaN) value, a configured min_value or max_value
criterion never excludes (comparisons with NaN are false), while a
configured allow_only list that does not itself contain NaN always
excludes it (NaN is not a member of the list), irrespective of the other
criteria: rows with missing values survive pure range filters but not
allow-list filters. -/
theorem filter_nan_behaviour (f : Filter) :
    (f.allow_only = none → f.disallow = none →
      is_excluded_by_filter FVal.nan f = false) ∧
    (∀ l, f.allow_only = some l → FVal.nan ∉ l →
      is_excluded_by_filter FVal.nan f = true) := by
  obtain ⟨mn, mx, ao, da⟩ := f
  constructor
  · intro hao hda
    simp only at hao hda
    subst hao
    subst hda
    unfold is_excluded_by_filter
    cases mn <;> cases mx <;>
      simp [fvalLt_nan_left, fvalGt_nan_left]
  · intro l hao hnan
    simp only at hao
    subst hao
    have hisin : fvalIsin FVal.nan l = false := by
      unfold fvalIsin
      rw [List.any_eq_false]
      intro x hx
      simp only [decide_eq_true_eq]
      intro hxe
      exact hnan (hxe ▸ hx)
    unfold is_excluded_by_filter
    simp [hisin]

/-- Witness for C10: NaN survives a pure range filter (min 0, max 1)
and is rejected by an allow-only filter (allow_only [5]). -/
theorem filter_nan_behaviour_witness :
    is_excluded_by_filter FVal.nan
        ⟨some (FVal.val 0), some (FVal.val 1), none, none⟩ = false ∧
      is_excluded_by_filter FVal.nan
        ⟨none, none, some [FVal.val 5], none⟩ = true :=
  ⟨(filter_nan_behaviour ⟨some (FVal.val 0), some (FVal.val 1), none, none⟩).1 rfl rfl,
   (filter_nan_behaviour ⟨none, none, some [FVal.val 5], none⟩).2 [FVal.val 5] rfl
     (by decide)⟩

/-! ## Segmentation (C8, C9) -/

theorem episodesGo_flatten {β : Type} (b : β → β → Bool) :
    ∀ (l : List β) (prev : β) (cur : List β),
      (episodesGo b prev cur l).flatten = cur ++ l := by
  intro l
  induction l with
  | nil =>
    intro prev cur
    simp [episodesGo]
  | cons y ys ih =>
    intro prev cur
    simp only [episodesGo]
    by_cases hb : b prev y = true
    · rw [if_pos hb]
      rw [List.flatten_cons, ih y [y]]
      simp
    · rw [if_neg hb, ih y (cur ++ [y])]
      simp

/-- The episodes partition the table: concatenating them in order gives
back exactly the rows, in original order (so the very first row starts
the first episode). -/
theorem episodes_flatten {β : Type} (b : β → β → Bool) (rows : List β) :
    (episodes b rows).flatten = rows := by
  cases rows with
  | nil => rfl
  | cons x xs =>
    show (episodesGo b x [x] xs).flatten = x :: xs
    rw [episodesGo_flatten]
    rfl

theorem episodesGo_groups {β : Type} (b : β → β → Bool) :
    ∀ (l : List β) (prev : β) (cur : List β),
      cur ≠ [] → List.Chain' (fun u w => b u w = false) cur →
      cur.getLast? = some prev →
      ∀ g ∈ episodesGo b prev cur l,
        g ≠ [] ∧ List.Chain' (fun u w => b u w = false) g := by
  intro l
  induction l with
  | nil =>
    intro prev cur hne hch _ g hg
    rw [show episodesGo b prev cur [] = [cur] from rfl] at hg
    rcases List.mem_singleton.mp hg with rfl
    exact ⟨hne, hch⟩
  | cons y ys ih =>
    intro prev cur hne hch hlast g hg
    simp only [episodesGo] at hg
    by_cases hb : b prev y = true
    · rw [if_pos hb] at hg
      rcases List.mem_cons.mp hg with rfl | hg2
      · exact ⟨hne, hch⟩
      · exact ih y [y] (by simp) (by simp) (by simp) g hg2
    · rw [if_neg hb] at hg
      refine ih y (cur ++ [y]) (by simp) ?_ (by simp) g hg
      rw [List.chain'_append]
      refine ⟨hch, List.chain'_singleton y, ?_⟩
      intro u hu w hw
      rw [hlast] at hu
      rcases Option.mem_some_iff.mp hu with rfl
      rcases Option.mem_some_iff.mp (by simpa using hw) with rfl
      simpa using hb

/-- Every episode is nonempty and contains no internal boundary: within
an episode, no row differs in chamber value from its predecessor nor
follows it by more than the maximum gap. -/
theorem episodes_groups {β : Type} (b : β → β → Bool) (rows : List β) :
    ∀ g ∈ episodes b rows, g ≠ [] ∧ List.Chain' (fun u w => b u w = false) g := by
  cases rows with
  | nil =>
    intro g hg
    exact absurd hg (List.not_mem_nil g)
  | cons x xs =>
    exact episodesGo_groups b xs x [x] (by simp) (by simp) (by simp)

theorem episodesGo_first {β : Type} (b : β → β → Bool) :
    ∀ (l : List β) (prev : β) (cur : List β),
      ∃ d gs, episodesGo b prev cur l = (cur ++ d) :: gs := by
  intro l
  induction l with
  | nil =>
    intro prev cur
    exact ⟨[], [], by simp [episodesGo]⟩
  | cons y ys ih =>
    intro prev cur
    simp only [episodesGo]
    by_cases hb : b prev y = true
    · rw [if_pos hb]
      exact ⟨[], episodesGo b y [y] ys, by simp⟩
    · rw [if_neg hb]
      rcases ih y (cur ++ [y]) with ⟨d, gs, heq⟩
      exact ⟨[y] ++ d, gs, by rw [heq]; simp⟩

theorem episodesGo_chain {β : Type} (b : β → β → Bool) :
    ∀ (l : List β) (prev : β) (cur : List β),
      cur.getLast? = some prev →
      List.Chain'
        (fun g₁ g₂ => ∀ u ∈ g₁.getLast?, ∀ w ∈ g₂.head?, b u w = true)
        (episodesGo b prev cur l) := by
  intro l
  induction l with
  | nil =>
    intro prev cur _
    rw [show episodesGo b prev cur [] = [cur] from rfl]
    exact List.chain'_singleton cur
  | cons y ys ih =>
    intro prev cur hlast
    simp only [episodesGo]
    by_cases hb : b prev y = true
    · rw [if_pos hb]
      rcases episodesGo_first b ys y [y] with ⟨d, gs, heq⟩
      rw [heq]
      refine List.chain'_cons.mpr ⟨?_, ?_⟩
      · intro u hu w hw
        rw [hlast] at hu
        rcases Option.mem_some_iff.mp hu with rfl
        rcases Option.mem_some_iff.mp (by simpa using hw) with rfl
        exact hb
      · rw [← heq]
        exact ih y [y] (by simp)
    · rw [if_neg hb]
      exact ih y (cur ++ [y]) (by simp)

/-- Consecutive episodes are separated by a boundary: the first row of
each episode after the first is a boundary row with respect to the last
row of the preceding episode. -/
theorem episodes_chain {β : Type} (b : β → β → Bool) (rows : List β) :
    List.Chain'
      (fun g₁ g₂ => ∀ u ∈ g₁.getLast?, ∀ w ∈ g₂.head?, b u w = true)
      (episodes b rows) := by
  cases rows with
  | nil => exact List.chain'_nil
  | cons x xs => exact episodesGo_chain b xs x [x] (by simp)

/-- C8: segmentation starts a new episode exactly at boundary rows.
The episodes concatenate back to the table in order (the first row
always starts episode 1), no episode contains an internal boundary row
(a chamber change or a gap exceeding max_gap with respect to the
preceding row), and each episode after the first starts at a boundary
row with respect to the last row of the preceding episode.  On the
concrete table [(0,A),(1,A),(1.5,B),(2,B),(4,B)] (times in seconds,
i.e. nanosecond instants 0, 10^9, 15*10^8, 2*10^9, 4*10^9) with
max_gap = 1 s, min_duration = 0, max_duration = 10 s, the yielded
measurements are {t = 0, 1; A} and the two sub-episodes of B split at
the 2 s -> 4 s gap. -/
theorem segmentation_boundary_rule :
    (∀ (max_gap : ℤ) (db : List MRow),
      (episodes (isBoundary max_gap) db).flatten = db ∧
      (∀ g ∈ episodes (isBoundary max_gap) db,
        g ≠ [] ∧ List.Chain' (fun u w => isBoundary max_gap u w = false) g) ∧
      List.Chain'
        (fun g₁ g₂ => ∀ u ∈ g₁.getLast?, ∀ w ∈ g₂.head?, isBoundary max_gap u w = true)
        (episodes (isBoundary max_gap) db)) ∧
    iter_measurements
        [((0 : ℤ), "A"), (1000000000, "A"), (1500000000, "B"), (2000000000, "B"),
          (4000000000, "B")] 1000000000 0 10000000000 =
      [[((0 : ℤ), "A"), ((1000000000 : ℤ), "A")],
        [((1500000000 : ℤ), "B"), ((2000000000 : ℤ), "B")],
        [((4000000000 : ℤ), "B")]] := by
  refine ⟨fun max_gap db =>
    ⟨episodes_flatten _ db, episodes_groups _ db, episodes_chain _ db⟩, ?_⟩
  decide

/-- Witness for C8: the first episode of the concrete table is nonempty
and has no internal boundary. -/
theorem segmentation_boundary_rule_witness :
    [((0 : ℤ), "A"), ((1000000000 : ℤ), "A")] ≠ [] ∧
      List.Chain' (fun u w => isBoundary 1000000000 u w = false)
        [((0 : ℤ), "A"), ((1000000000 : ℤ), "A")] :=
  (segmentation_boundary_rule.1 1000000000
      [((0 : ℤ), "A"), (1000000000, "A"), (1500000000, "B"), (2000000000, "B"),
        (4000000000, "B")]).2.1
    [((0 : ℤ), "A"), ((1000000000 : ℤ), "A")] (by decide)

/-- C9: an episode duration is the last row timestamp minus the first
row timestamp; an episode is yielded by `iter_measurements` exactly when
min_duration ≤ duration ≤ max_duration, both bounds inclusive (equality
accepted, strictly outside rejected); and, for the usual configuration
0 ≤ min_duration ≤ max_duration, a single-row episode (duration zero) is
accepted exactly when min_duration is zero. -/
theorem duration_acceptance (db : List MRow) (max_gap min_duration max_duration : ℤ)
    (h0 : 0 ≤ min_duration) (h1 : min_duration ≤ max_duration) :
    (∀ (x : MRow) (xs : List MRow),
      duration (x :: xs) = (List.getLastD xs x).1 - x.1) ∧
    (∀ m, m ∈ iter_measurements db max_gap min_duration max_duration ↔
      m ∈ episodes (isBoundary max_gap) db ∧
        min_duration ≤ duration m ∧ duration m ≤ max_duration) ∧
    (∀ x : MRow, acceptEpisode min_duration max_duration [x] = true ↔ min_duration = 0) := by
  refine ⟨fun x xs => rfl, ?_, ?_⟩
  · intro m
    unfold iter_measurements
    rw [List.mem_filter]
    unfold acceptEpisode
    rw [Bool.and_eq_true, decide_eq_true_eq, decide_eq_true_eq]
  · intro x
    have hdur : duration [x] = 0 := by simp [duration]
    unfold acceptEpisode
    rw [hdur, Bool.and_eq_true, decide_eq_true_eq, decide_eq_true_eq]
    constructor
    · intro hb
      exact le_antisymm hb.1 h0
    · intro hmin
      exact ⟨le_of_eq hmin, h0.trans h1⟩

/-- Witness for C9, at the configuration min_duration = 0,
max_duration = 10: a single-row episode is accepted exactly when the
minimum duration is zero. -/
theorem duration_acceptance_witness :
    acceptEpisode 0 10000000000 [((5000000000 : ℤ), "A")] = true ↔ (0 : ℤ) = 0 :=
  (duration_acceptance [] 1000000000 0 10000000000 (by norm_num) (by norm_num)).2.2
    ((5000000000 : ℤ), "A")

/-! ## Flux estimation (C4, C5) -/

/-- C4 counterexample: a call whose selected sub-series has exactly one
point (fewer than 2) returns a fitted result (the minimum-norm
least-squares solution) instead of failing with an insufficient-data
error. -/
theorem estimate_vol_flux_one_point_returns_result :
    (selectAnalyze [((0 : ℤ), (1 : ℚ))] 0 0).length = 1 ∧
      (estimate_vol_flux [((0 : ℤ), (1 : ℚ))] 0 0 1 1).isOk = true :=
  ⟨by decide, by rfl⟩

/-- C4 as amended: `estimate_vol_flux` performs no sample-count check.
When the selected sub-series has fewer than 2 points it does not fail
with a dedicated insufficient-data error: with zero selected points it
fails with the generic index error raised by `data_analyze.index[0]`,
and with one selected point it silently returns a fitted result. -/
theorem estimate_vol_flux_no_insufficient_data_check
    (m : List (ℤ × ℚ)) (t0_delay t0_margin : ℤ) (tau_s h : ℝ)
    (hm : m ≠ []) (hfew : (selectAnalyze m t0_delay t0_margin).length < 2) :
    (selectAnalyze m t0_delay t0_margin = [] →
      estimate_vol_flux m t0_delay t0_margin tau_s h = Except.error FluxError.indexError) ∧
    (selectAnalyze m t0_delay t0_margin ≠ [] →
      (estimate_vol_flux m t0_delay t0_margin tau_s h).isOk = true) := by
  cases m with
  | nil => exact absurd rfl hm
  | cons m0 mr =>
    constructor
    · intro hsel
      simp only [estimate_vol_flux]
      rw [hsel]
    · intro hne
      cases hs : selectAnalyze (m0 :: mr) t0_delay t0_margin with
      | nil => exact absurd hs hne
      | cons a0 r =>
        simp only [estimate_vol_flux]
        rw [hs]
        rfl

/-- Witness for the amended C4 at a one-point measurement. -/
theorem estimate_vol_flux_no_insufficient_data_check_witness :
    (selectAnalyze [((0 : ℤ), (1 : ℚ))] 0 0 = [] →
      estimate_vol_flux [((0 : ℤ), (1 : ℚ))] 0 0 1 1 = Except.error FluxError.indexError) ∧
    (selectAnalyze [((0 : ℤ), (1 : ℚ))] 0 0 ≠ [] →
      (estimate_vol_flux [((0 : ℤ), (1 : ℚ))] 0 0 1 1).isOk = true) :=
  estimate_vol_flux_no_insufficient_data_check [((0 : ℤ), (1 : ℚ))] 0 0 1 1
    (by decide) (by decide)

/-- C5 counterexample: with τ = -1 < 0 (and h = 1) the fit returns a
result instead of failing with an invalid-parameter error. -/
theorem estimate_vol_flux_negative_tau_returns_result :
    ((-1 : ℝ) < 0) ∧
      (estimate_vol_flux [((0 : ℤ), (1 : ℚ)), ((1000000000 : ℤ), (2 : ℚ))] 0 0 (-1) 1).isOk
        = true :=
  ⟨by norm_num, by rfl⟩

/-- C5 as amended: `estimate_vol_flux` performs no validity check on
τ or h.  For any physically invalid parameters that still give a
well-defined float computation (τ < 0 or h < 0; the exact-zero cases
additionally hit float division by zero), a call with a nonempty
selected sub-series returns a fitted c0 and flux rather than an
invalid-parameter error. -/
theorem estimate_vol_flux_no_parameter_check
    (m : List (ℤ × ℚ)) (t0_delay t0_margin : ℤ) (tau_s h : ℝ)
    (hm : m ≠ []) (hsel : selectAnalyze m t0_delay t0_margin ≠ [])
    (_hbad : tau_s < 0 ∨ h < 0) :
    (estimate_vol_flux m t0_delay t0_margin tau_s h).isOk = true := by
  cases m with
  | nil => exact absurd rfl hm
  | cons m0 mr =>
    cases hs : selectAnalyze (m0 :: mr) t0_delay t0_margin with
    | nil => exact absurd hs hsel
    | cons a0 r =>
      simp only [estimate_vol_flux]
      rw [hs]
      rfl

/-- Witness for the amended C5 at τ = -1, h = 1. -/
theorem estimate_vol_flux_no_parameter_check_witness :
    (estimate_vol_flux [((0 : ℤ), (1 : ℚ)), ((1000000000 : ℤ), (2 : ℚ))] 0 0 (-1) 1).isOk
      = true :=
  estimate_vol_flux_no_parameter_check
    [((0 : ℤ), (1 : ℚ)), ((1000000000 : ℤ), (2 : ℚ))] 0 0 (-1) 1
    (by decide) (by decide) (Or.inl (by norm_num))

end OTF
